import Mathlib

/-!
Shallow embedding of the heimdalerp `erp` module's persistent data schema
(`src/erp/models/invoice.py`, `src/erp/models/invoice_ar.py`,
`src/erp/models/sales.py`).  The repository is declarative Django model
code: field declarations with validators, choice lists, defaults,
nullability flags, `unique_together` constraints and foreign keys with
`on_delete` policies.  We embed:

  * the foreign-key layer of the schema as an explicit table
    (`erpForeignKeys`) transcribed field by field from the three source
    files;
  * each declared validator (`MinValueValidator`, `MaxValueValidator`,
    `common.validators.date_is_present_or_past`) as a boolean function;
  * the record types of the models the claims touch, with `Option` for
    nullable columns, and `full_clean`-style validation functions that run
    exactly the checks the field declarations impose (declared validators,
    `choices` membership, `null`/`blank` requiredness, `max_length`);
  * a relational state (`DB` for the `invoice` app, `ARDB` for the
    `invoice_ar` point-of-sale table) with insertion subject to primary-key,
    foreign-key and `unique_together` integrity, and deletion following the
    Django collector semantics: `PROTECT` references abort the delete with
    an integrity error, `CASCADE` references are deleted along with the
    target, and a failed delete changes nothing.

Numeric `DecimalField`/`FloatField` values are modelled as rationals; dates
as natural-number day indices compared against a `today` parameter.
-/

namespace ERP

/-- Django `on_delete` policies used in this repository. -/
inductive OnDelete where
  | CASCADE
  | PROTECT
deriving DecidableEq, Repr

/-- One foreign-key (or one-to-one) field of the schema: referencing model,
field name, referenced model, whether it is a `OneToOneField`, its
`on_delete` policy, and whether it is nullable (`null=True`). -/
structure FKField where
  model : String
  field : String
  target : String
  oneToOne : Bool
  onDelete : OnDelete
  nullable : Bool
deriving DecidableEq, Repr

/-- Every explicit foreign-key / one-to-one field declared in
`invoice.py`, `invoice_ar.py` and `sales.py`, in source order.
`ProductSales.invoice_product` and `Sale.quotation` declare no `on_delete`;
the framework default for that Django version is CASCADE.  Many-to-many
fields are not foreign keys and are not listed. -/
def erpForeignKeys : List FKField := [
  -- invoice.py
  ⟨"CompanyInvoice", "persons_company", "Company", true, .CASCADE, false⟩,
  ⟨"CompanyInvoice", "fiscal_position", "FiscalPosition", false, .PROTECT, true⟩,
  ⟨"CompanyInvoice", "fiscal_address", "PhysicalAddress", false, .CASCADE, true⟩,
  ⟨"CompanyInvoice", "default_invoice_debit_account", "Account", false, .PROTECT, true⟩,
  ⟨"CompanyInvoice", "default_invoice_credit_account", "Account", false, .PROTECT, true⟩,
  ⟨"ContactInvoice", "contact_contact", "Contact", true, .CASCADE, false⟩,
  ⟨"ContactInvoice", "fiscal_position", "FiscalPosition", false, .PROTECT, false⟩,
  ⟨"ContactInvoice", "fiscal_address", "PhysicalAddress", false, .CASCADE, false⟩,
  ⟨"Product", "invoice_company", "CompanyInvoice", false, .PROTECT, false⟩,
  ⟨"Product", "vat", "VAT", false, .PROTECT, false⟩,
  ⟨"InvoiceLine", "product", "Product", false, .PROTECT, false⟩,
  ⟨"Invoice", "invoice_company", "CompanyInvoice", false, .PROTECT, false⟩,
  ⟨"Invoice", "invoice_contact", "ContactInvoice", false, .PROTECT, false⟩,
  ⟨"Invoice", "related_invoice", "Invoice", false, .PROTECT, true⟩,
  ⟨"Invoice", "invoice_type", "InvoiceType", false, .PROTECT, true⟩,
  ⟨"Invoice", "transaction", "Transaction", false, .PROTECT, true⟩,
  ⟨"FiscalPositionHasInvoiceTypeAllowed", "fiscal_position_issuer", "FiscalPosition", false, .PROTECT, false⟩,
  ⟨"FiscalPositionHasInvoiceTypeAllowed", "invoice_type", "InvoiceType", false, .PROTECT, false⟩,
  ⟨"FiscalPositionHasInvoiceTypeAllowed", "fiscal_position_receiver", "FiscalPosition", false, .PROTECT, false⟩,
  -- invoice_ar.py
  ⟨"ContactInvoiceAR", "invoice_contact", "ContactInvoice", true, .CASCADE, false⟩,
  ⟨"CompanyInvoiceAR", "invoice_company", "CompanyInvoice", true, .CASCADE, false⟩,
  ⟨"WebServiceSession", "invoicear_company", "CompanyInvoiceAR", false, .PROTECT, false⟩,
  ⟨"PointOfSaleAR", "invoicear_company", "CompanyInvoiceAR", false, .PROTECT, false⟩,
  ⟨"PointOfSaleAR", "fiscal_address", "PhysicalAddress", false, .PROTECT, false⟩,
  ⟨"InvoiceAR", "invoicear_company", "CompanyInvoiceAR", false, .PROTECT, false⟩,
  ⟨"InvoiceAR", "invoicear_contact", "ContactInvoiceAR", false, .PROTECT, false⟩,
  ⟨"InvoiceAR", "point_of_sale_ar", "PointOfSaleAR", false, .PROTECT, false⟩,
  ⟨"InvoiceAR", "concept_type", "ConceptType", false, .PROTECT, false⟩,
  ⟨"InvoiceARHasVATSubtotal", "vat", "VAT", false, .PROTECT, false⟩,
  -- sales.py
  ⟨"ProductCategory", "persons_company", "Company", false, .PROTECT, false⟩,
  ⟨"ProductSales", "invoice_product", "Product", true, .CASCADE, false⟩,
  ⟨"QuotationLine", "product", "Product", false, .PROTECT, false⟩,
  ⟨"QuotationLine", "product_vat_override", "VAT", false, .PROTECT, true⟩,
  ⟨"Quotation", "persons_company", "Company", false, .PROTECT, false⟩,
  ⟨"SaleLine", "product", "ProductSales", false, .PROTECT, false⟩,
  ⟨"SaleLine", "product_vat_override", "VAT", false, .PROTECT, true⟩,
  ⟨"Sale", "quotation", "Quotation", true, .CASCADE, true⟩,
  ⟨"Sale", "persons_company", "Company", false, .PROTECT, false⟩]

/-- Django `MinValueValidator(lim)`: the value passes iff `lim ≤ v`. -/
def minValueValidator (lim v : ℚ) : Bool := decide (lim ≤ v)

/-- Django `MaxValueValidator(lim)`: the value passes iff `v ≤ lim`. -/
def maxValueValidator (lim v : ℚ) : Bool := decide (v ≤ lim)

/-- Modelled from the spec: the validator
`common.validators.date_is_present_or_past` is imported from the `common`
app, whose source is not part of this repository.  Per the spec, a date
strictly in the future relative to the current day is rejected; a date
equal to today or in the past is accepted.  Dates are day indices. -/
def date_is_present_or_past (today v : Nat) : Bool := decide (v ≤ today)

/-- Validator list of `VAT.tax`
(`validators=[MinValueValidator(0.00), MaxValueValidator(1.00)]`). -/
def VAT.taxValidatorsPass (v : ℚ) : Bool :=
  minValueValidator 0 v && maxValueValidator 1 v

/-- Validator list of `InvoiceLine.discount`
(`validators=[MinValueValidator(0.00), MaxValueValidator(1.00)]`). -/
def InvoiceLine.discountValidatorsPass (v : ℚ) : Bool :=
  minValueValidator 0 v && maxValueValidator 1 v

/-- Validator list of `QuotationLine.product_discount`: the source declares
a bare `FloatField(default=0.00, blank=True, help_text=...)` with NO
`validators` argument, so every value passes field validation. -/
def QuotationLine.product_discountValidatorsPass (_v : ℚ) : Bool := true

/-- Validator list of `SaleLine.product_discount`: like
`QuotationLine.product_discount`, a `FloatField` with no validators. -/
def SaleLine.product_discountValidatorsPass (_v : ℚ) : Bool := true

/-- `INVOICE_STATUSTYPE_DRAFT = "D"` from `invoice.py`. -/
def INVOICE_STATUSTYPE_DRAFT : String := "D"

/-- `INVOICE_STATUSTYPE_ACCEPTED = "A"` from `invoice.py`. -/
def INVOICE_STATUSTYPE_ACCEPTED : String := "A"

/-- `INVOICE_STATUSTYPE_AUTHORIZED = "T"` from `invoice.py`. -/
def INVOICE_STATUSTYPE_AUTHORIZED : String := "T"

/-- `INVOICE_STATUSTYPE_CANCELED = "C"` from `invoice.py`. -/
def INVOICE_STATUSTYPE_CANCELED : String := "C"

/-- The `choices` list of `Invoice.status`: status code paired with its
human-readable label. -/
def INVOICE_STATUS_TYPES : List (String × String) := [
  (INVOICE_STATUSTYPE_DRAFT, "Draft"),
  (INVOICE_STATUSTYPE_ACCEPTED, "Accepted"),
  (INVOICE_STATUSTYPE_AUTHORIZED, "Authorized"),
  (INVOICE_STATUSTYPE_CANCELED, "Canceled")]

/-- `QUOTATION_STATUSTYPE_DRAFT = "D"` from `sales.py`. -/
def QUOTATION_STATUSTYPE_DRAFT : String := "D"

/-- `QUOTATION_STATUSTYPE_SAVED = "SA"` from `sales.py`. -/
def QUOTATION_STATUSTYPE_SAVED : String := "SA"

/-- `QUOTATION_STATUSTYPE_SOLD = "SO"` from `sales.py`. -/
def QUOTATION_STATUSTYPE_SOLD : String := "SO"

/-- `QUOTATION_STATUSTYPE_CANCELED = "C"` from `sales.py`. -/
def QUOTATION_STATUSTYPE_CANCELED : String := "C"

/-- The `choices` list of `Quotation.status`. -/
def QUOTATION_STATUS_TYPES : List (String × String) := [
  (QUOTATION_STATUSTYPE_DRAFT, "Draft"),
  (QUOTATION_STATUSTYPE_SAVED, "Saved"),
  (QUOTATION_STATUSTYPE_SOLD, "Sold"),
  (QUOTATION_STATUSTYPE_CANCELED, "Canceled")]

/-- `SALE_STATUSTYPE_DRAFT = "D"` from `sales.py`. -/
def SALE_STATUSTYPE_DRAFT : String := "D"

/-- `SALE_STATUSTYPE_SAVED = "S"` from `sales.py`. -/
def SALE_STATUSTYPE_SAVED : String := "S"

/-- `SALE_STATUSTYPE_INVOICED = "I"` from `sales.py`. -/
def SALE_STATUSTYPE_INVOICED : String := "I"

/-- `SALE_STATUSTYPE_CANCELED = "C"` from `sales.py`. -/
def SALE_STATUSTYPE_CANCELED : String := "C"

/-- The `choices` list of `Sale.status`. -/
def SALE_STATUS_TYPES : List (String × String) := [
  (SALE_STATUSTYPE_DRAFT, "Draft"),
  (SALE_STATUSTYPE_SAVED, "Saved"),
  (SALE_STATUSTYPE_INVOICED, "Invoiced"),
  (SALE_STATUSTYPE_CANCELED, "Canceled")]

/-- A stored `invoice.FiscalPosition` row: `name` (unique), `code`. -/
structure FiscalPosition where
  id : Nat
  name : String
  code : String
deriving DecidableEq, Repr

/-- A stored `invoice.VAT` row: unique `name`, `code`, and the `tax`
fraction (DecimalField, validated to [0.00, 1.00]). -/
structure VAT where
  id : Nat
  name : String
  code : String
  tax : ℚ
deriving DecidableEq, Repr

/-- A stored `invoice.CompanyInvoice` row.  `persons_company` is the
one-to-one key to the external `persons.Company`; `fiscal_position`,
`fiscal_address` and the two default account references are nullable. -/
structure CompanyInvoice where
  id : Nat
  persons_company : Nat
  legal_name : String
  initiated_activities : Option Nat
  fiscal_position : Option Nat
  fiscal_address : Option Nat
  default_invoice_debit_account : Option Nat
  default_invoice_credit_account : Option Nat
deriving DecidableEq, Repr

/-- A stored `invoice.ContactInvoice` row.  `contact_contact` is the
one-to-one key to the external `contact.Contact`; `fiscal_position` and
`fiscal_address` are NOT nullable. -/
structure ContactInvoice where
  id : Nat
  contact_contact : Nat
  legal_name : String
  fiscal_position : Nat
  fiscal_address : Nat
deriving DecidableEq, Repr

/-- A stored `invoice.Product` row.  `unique_together =
("invoice_company", "name")` is enforced at insertion. -/
structure Product where
  id : Nat
  invoice_company : Nat
  name : String
  current_price : Option ℚ
  vat : Nat
deriving DecidableEq, Repr

/-- A stored `invoice.InvoiceLine` row. -/
structure InvoiceLine where
  id : Nat
  product : Nat
  price_sold : Option ℚ
  discount : ℚ
  quantity : Nat
  description : String
deriving DecidableEq, Repr

/-- A stored `invoice.Invoice` row.  `invoice_lines` is the many-to-many
link list; `related_invoice`, `invoice_type` and `transaction` are
nullable foreign keys. -/
structure Invoice where
  id : Nat
  invoice_company : Nat
  invoice_contact : Nat
  related_invoice : Option Nat
  number : Int
  invoice_lines : List Nat
  invoice_type : Option Nat
  invoice_date : Nat
  status : String
  subtotal : ℚ
  total : ℚ
  notes : String
  transaction : Option Nat
deriving DecidableEq, Repr

/-- A stored `invoice.FiscalPositionHasInvoiceTypeAllowed` row. -/
structure FiscalPositionHasInvoiceTypeAllowed where
  id : Nat
  fiscal_position_issuer : Nat
  invoice_type : Nat
  fiscal_position_receiver : Nat
deriving DecidableEq, Repr

/-- A `sales.QuotationLine` row. -/
structure QuotationLine where
  id : Nat
  product : Nat
  product_price_override : Option ℚ
  product_vat_override : Option Nat
  product_discount : ℚ
  quantity : Nat
deriving DecidableEq, Repr

/-- A `sales.Quotation` row.  `contacts` and `quotation_lines` are
many-to-many link lists. -/
structure Quotation where
  id : Nat
  persons_company : Nat
  contacts : List Nat
  quotation_lines : List Nat
  quotation_date : Nat
  subtotal : ℚ
  total : ℚ
  notes : String
  status : String
deriving DecidableEq, Repr

/-- A `sales.SaleLine` row. -/
structure SaleLine where
  id : Nat
  product : Nat
  product_price_override : Option ℚ
  product_vat_override : Option Nat
  product_discount : ℚ
  quantity : Nat
deriving DecidableEq, Repr

/-- A `sales.Sale` row.  `quotation` is a nullable one-to-one link to the
originating `Quotation`. -/
structure Sale where
  id : Nat
  quotation : Option Nat
  persons_company : Nat
  contacts : List Nat
  sale_lines : List Nat
  sale_date : Nat
  subtotal : ℚ
  total : ℚ
  notes : String
  status : String
deriving DecidableEq, Repr

/-- An `invoice_ar.PointOfSaleAR` row.  `unique_together =
("invoicear_company", "afip_id")` is enforced at insertion. -/
structure PointOfSaleAR where
  id : Nat
  invoicear_company : Nat
  afip_id : Nat
  fantasy_name : String
  point_of_sale_type : String
  fiscal_address : Nat
  is_inactive : Bool
deriving DecidableEq, Repr

/-- `full_clean` of a stored `VAT` row: `name` is required (`blank` not
set) with `max_length=15`; `code` may be blank with `max_length=15`;
`tax` runs its declared validators. -/
def VAT.clean (v : VAT) : Bool :=
  decide (v.name ≠ "") && decide (v.name.length ≤ 15)
    && decide (v.code.length ≤ 15) && VAT.taxValidatorsPass v.tax

/-- `full_clean` of an `InvoiceLine` row: `price_sold` is nullable with
`MinValueValidator(0.00)`; `discount` runs its declared validators;
`description` may be blank with `max_length=300`. -/
def InvoiceLine.clean (l : InvoiceLine) : Bool :=
  (match l.price_sold with
    | none => true
    | some p => minValueValidator 0 p)
    && InvoiceLine.discountValidatorsPass l.discount
    && decide (l.description.length ≤ 300)

/-- `full_clean` of a `QuotationLine` row: neither
`product_price_override` nor `product_discount` declares any validator. -/
def QuotationLine.clean (l : QuotationLine) : Bool :=
  QuotationLine.product_discountValidatorsPass l.product_discount

/-- `full_clean` of a `SaleLine` row: neither `product_price_override`
nor `product_discount` declares any validator. -/
def SaleLine.clean (l : SaleLine) : Bool :=
  SaleLine.product_discountValidatorsPass l.product_discount

/-- `full_clean` of an `Invoice` row: `invoice_date` runs
`date_is_present_or_past`; `status` must be one of the codes of
`INVOICE_STATUS_TYPES`; `notes` may be blank; `number`, `subtotal` and
`total` declare no validators. -/
def Invoice.clean (today : Nat) (r : Invoice) : Bool :=
  date_is_present_or_past today r.invoice_date
    && (INVOICE_STATUS_TYPES.map Prod.fst).contains r.status

/-- `full_clean` of a `Quotation` row: `quotation_date` runs
`date_is_present_or_past`; `status` must be one of the codes of
`QUOTATION_STATUS_TYPES`. -/
def Quotation.clean (today : Nat) (r : Quotation) : Bool :=
  date_is_present_or_past today r.quotation_date
    && (QUOTATION_STATUS_TYPES.map Prod.fst).contains r.status

/-- `full_clean` of a `Sale` row: `sale_date` runs
`date_is_present_or_past`; `status` must be one of the codes of
`SALE_STATUS_TYPES`. -/
def Sale.clean (today : Nat) (r : Sale) : Bool :=
  date_is_present_or_past today r.sale_date
    && (SALE_STATUS_TYPES.map Prod.fst).contains r.status

/-- A `CompanyInvoice` as submitted for validation: before `full_clean`
every reference may still be unset, so each is an `Option`. -/
structure CompanyInvoiceInput where
  persons_company : Option Nat
  legal_name : String
  initiated_activities : Option Nat
  fiscal_position : Option Nat
  fiscal_address : Option Nat
  default_invoice_debit_account : Option Nat
  default_invoice_credit_account : Option Nat
deriving DecidableEq, Repr

/-- A `ContactInvoice` as submitted for validation. -/
structure ContactInvoiceInput where
  contact_contact : Option Nat
  legal_name : String
  fiscal_position : Option Nat
  fiscal_address : Option Nat
deriving DecidableEq, Repr

/-- `full_clean` of a submitted `CompanyInvoice`: `persons_company` and
`legal_name` (`max_length=300`) are required; `initiated_activities` is
nullable but validated by `date_is_present_or_past` when set;
`fiscal_position`, `fiscal_address` and both default accounts are
declared `blank=True, null=True`, hence may be left unset. -/
def CompanyInvoiceInput.clean (today : Nat) (x : CompanyInvoiceInput) : Bool :=
  x.persons_company.isSome
    && decide (x.legal_name ≠ "") && decide (x.legal_name.length ≤ 300)
    && (match x.initiated_activities with
      | none => true
      | some d => date_is_present_or_past today d)

/-- `full_clean` of a submitted `ContactInvoice`: `contact_contact`,
`legal_name` (`max_length=300`), `fiscal_position` and `fiscal_address`
are all required (none of the references declares `null=True`). -/
def ContactInvoiceInput.clean (x : ContactInvoiceInput) : Bool :=
  x.contact_contact.isSome
    && decide (x.legal_name ≠ "") && decide (x.legal_name.length ≤ 300)
    && x.fiscal_position.isSome
    && x.fiscal_address.isSome

/-- An `Invoice` created from only the fields with no declared default:
every other column takes the default its declaration states
(`number=0`, `status=INVOICE_STATUSTYPE_DRAFT`, `subtotal=0.00`,
`total=0.00`, `notes=""`, nullable references unset, no lines). -/
def Invoice.new (id invoice_company invoice_contact invoice_date : Nat) :
    Invoice :=
  { id := id
    invoice_company := invoice_company
    invoice_contact := invoice_contact
    related_invoice := none
    number := 0
    invoice_lines := []
    invoice_type := none
    invoice_date := invoice_date
    status := INVOICE_STATUSTYPE_DRAFT
    subtotal := 0
    total := 0
    notes := ""
    transaction := none }

/-- A `Quotation` created from only the fields with no declared default:
`status` takes `QUOTATION_STATUSTYPE_DRAFT`, amounts `0.00`, notes empty. -/
def Quotation.new (id persons_company quotation_date : Nat) : Quotation :=
  { id := id
    persons_company := persons_company
    contacts := []
    quotation_lines := []
    quotation_date := quotation_date
    subtotal := 0
    total := 0
    notes := ""
    status := QUOTATION_STATUSTYPE_DRAFT }

/-- A `Sale` created from only the fields with no declared default:
`quotation` is nullable and unset, `status` takes
`SALE_STATUSTYPE_DRAFT`, amounts `0.00`, notes empty. -/
def Sale.new (id persons_company sale_date : Nat) : Sale :=
  { id := id
    quotation := none
    persons_company := persons_company
    contacts := []
    sale_lines := []
    sale_date := sale_date
    subtotal := 0
    total := 0
    notes := ""
    status := SALE_STATUSTYPE_DRAFT }

/-- The relational state of the `invoice` app.  Rows of models defined in
this repository are full records; rows of external models (`persons.Company`,
`contact.Contact`, `persons.PhysicalAddress`, `accounting.Account`,
`accounting.Transaction`) and of `InvoiceType` are kept as ids, the only
part of them the schema references. -/
structure DB where
  companies : List Nat
  contacts : List Nat
  addresses : List Nat
  accounts : List Nat
  transactions : List Nat
  invoiceTypes : List Nat
  fiscalPositions : List FiscalPosition
  companyInvoices : List CompanyInvoice
  contactInvoices : List ContactInvoice
  vats : List VAT
  products : List Product
  invoiceLines : List InvoiceLine
  invoices : List Invoice
  fpInvoiceTypesAllowed : List FiscalPositionHasInvoiceTypeAllowed
deriving DecidableEq, Repr

/-- Delete a `VAT` row.  The only foreign key to `VAT` inside the
`invoice` app is `Product.vat` with `on_delete=PROTECT`: if any product
references the row the delete raises `ProtectedError` and the state is
unchanged; otherwise the row is removed. -/
def deleteVAT (s : DB) (vid : Nat) : Except String DB :=
  if s.products.any (fun p => p.vat == vid) then
    .error "ProtectedError"
  else
    .ok { s with vats := s.vats.filter (fun v => v.id ≠ vid) }

/-- Delete a `Product` row.  `InvoiceLine.product`, with
`on_delete=PROTECT`, protects it. -/
def deleteProduct (s : DB) (pid : Nat) : Except String DB :=
  if s.invoiceLines.any (fun l => l.product == pid) then
    .error "ProtectedError"
  else
    .ok { s with products := s.products.filter (fun p => p.id ≠ pid) }

/-- Delete an `Account` row.  `CompanyInvoice.default_invoice_debit_account`
and `CompanyInvoice.default_invoice_credit_account`, both
`on_delete=PROTECT`, protect it. -/
def deleteAccount (s : DB) (aid : Nat) : Except String DB :=
  if s.companyInvoices.any (fun c =>
      c.default_invoice_debit_account == some aid
        || c.default_invoice_credit_account == some aid) then
    .error "ProtectedError"
  else
    .ok { s with accounts := s.accounts.filter (fun a => a ≠ aid) }

/-- Delete a `FiscalPosition` row.  `CompanyInvoice.fiscal_position`,
`ContactInvoice.fiscal_position` and both position references of
`FiscalPositionHasInvoiceTypeAllowed`, all `on_delete=PROTECT`,
protect it. -/
def deleteFiscalPosition (s : DB) (fid : Nat) : Except String DB :=
  if s.companyInvoices.any (fun c => c.fiscal_position == some fid)
      || s.contactInvoices.any (fun c => c.fiscal_position == fid)
      || s.fpInvoiceTypesAllowed.any (fun a =>
        a.fiscal_position_issuer == fid || a.fiscal_position_receiver == fid) then
    .error "ProtectedError"
  else
    .ok { s with fiscalPositions := s.fiscalPositions.filter (fun f => f.id ≠ fid) }

/-- Delete a `persons.Company` row, following the Django delete collector:
`CompanyInvoice.persons_company` is a one-to-one with `on_delete=CASCADE`,
so the company's `CompanyInvoice` extension rows are collected for
deletion; `Product.invoice_company` and `Invoice.invoice_company`, both
`on_delete=PROTECT`, abort the whole delete if they reference a collected
row.  On success the company and its extension rows are removed. -/
def deleteCompany (s : DB) (cid : Nat) : Except String DB :=
  let doomed := s.companyInvoices.filter (fun ci => ci.persons_company == cid)
  if s.products.any (fun p => doomed.any (fun ci => ci.id == p.invoice_company))
      || s.invoices.any (fun i => doomed.any (fun ci => ci.id == i.invoice_company)) then
    .error "ProtectedError"
  else
    .ok { s with
      companies := s.companies.filter (fun c => c ≠ cid)
      companyInvoices := s.companyInvoices.filter
        (fun ci => ci.persons_company ≠ cid) }

/-- Delete a `contact.Contact` row: `ContactInvoice.contact_contact` is a
one-to-one with `on_delete=CASCADE`, so the contact's `ContactInvoice`
extension rows are collected; `Invoice.invoice_contact`
(`on_delete=PROTECT`) aborts the delete if it references a collected row. -/
def deleteContact (s : DB) (cid : Nat) : Except String DB :=
  let doomed := s.contactInvoices.filter (fun ci => ci.contact_contact == cid)
  if s.invoices.any (fun i => doomed.any (fun ci => ci.id == i.invoice_contact)) then
    .error "ProtectedError"
  else
    .ok { s with
      contacts := s.contacts.filter (fun c => c ≠ cid)
      contactInvoices := s.contactInvoices.filter
        (fun ci => ci.contact_contact ≠ cid) }

/-- Insert a `Product` row subject to the integrity constraints its
declaration imposes: a fresh primary key, existing targets for the
`invoice_company` and `vat` foreign keys, and
`unique_together = ("invoice_company", "name")`. -/
def insertProduct (s : DB) (p : Product) : Except String DB :=
  if s.products.any (fun q => q.id == p.id) then
    .error "IntegrityError: duplicate primary key"
  else if !(s.companyInvoices.any (fun c => c.id == p.invoice_company)) then
    .error "IntegrityError: invoice_company references no CompanyInvoice"
  else if !(s.vats.any (fun v => v.id == p.vat)) then
    .error "IntegrityError: vat references no VAT"
  else if s.products.any (fun q =>
      q.invoice_company == p.invoice_company && q.name == p.name) then
    .error "IntegrityError: unique_together invoice_company, name"
  else
    .ok { s with products := s.products ++ [p] }

/-- The relational state of the `invoice_ar` app fragment the claims
need: `CompanyInvoiceAR` rows and `PhysicalAddress` rows as ids, and the
`PointOfSaleAR` table. -/
structure ARDB where
  companyInvoiceARs : List Nat
  addresses : List Nat
  pointOfSalesAR : List PointOfSaleAR
deriving DecidableEq, Repr

/-- Insert a `PointOfSaleAR` row subject to the integrity constraints its
declaration imposes: a fresh primary key, existing targets for the
`invoicear_company` and `fiscal_address` foreign keys, and
`unique_together = ("invoicear_company", "afip_id")`. -/
def insertPointOfSaleAR (s : ARDB) (p : PointOfSaleAR) : Except String ARDB :=
  if s.pointOfSalesAR.any (fun q => q.id == p.id) then
    .error "IntegrityError: duplicate primary key"
  else if !(s.companyInvoiceARs.any (fun c => c == p.invoicear_company)) then
    .error "IntegrityError: invoicear_company references no CompanyInvoiceAR"
  else if !(s.addresses.any (fun a => a == p.fiscal_address)) then
    .error "IntegrityError: fiscal_address references no PhysicalAddress"
  else if s.pointOfSalesAR.any (fun q =>
      q.invoicear_company == p.invoicear_company && q.afip_id == p.afip_id) then
    .error "IntegrityError: unique_together invoicear_company, afip_id"
  else
    .ok { s with pointOfSalesAR := s.pointOfSalesAR ++ [p] }

/-- A sample `invoice`-app state exercising every protected reference:
one company extension holding a fiscal position and a default debit
account, one contact extension, one VAT referenced by a product, one
product referenced by an invoice line, and one invoice. -/
def dbMaster : DB :=
  { companies := [1, 2]
    contacts := [1]
    addresses := [1]
    accounts := [1]
    transactions := []
    invoiceTypes := []
    fiscalPositions := [⟨1, "Responsable Inscripto", "ri"⟩]
    companyInvoices := [⟨1, 1, "ACME SA", none, some 1, none, some 1, none⟩]
    contactInvoices := [⟨1, 1, "John Doe", 1, 1⟩]
    vats := [⟨1, "21% AR", "21", 21 / 100⟩]
    products := [⟨1, 1, "Widget", none, 1⟩]
    invoiceLines := [⟨1, 1, none, 0, 1, ""⟩]
    invoices := [⟨1, 1, 1, none, 1, [1], none, 0, "D", 0, 0, "", none⟩]
    fpInvoiceTypesAllowed := [] }

/-- A sample state where both the company and the contact are deletable:
their one-to-one extension rows exist and no product or invoice
references those rows. -/
def dbExtensionOnly : DB :=
  { companies := [7]
    contacts := [9]
    addresses := [1]
    accounts := []
    transactions := []
    invoiceTypes := []
    fiscalPositions := [⟨1, "Responsable Inscripto", "ri"⟩]
    companyInvoices := [⟨1, 7, "ACME SA", none, none, none, none, none⟩]
    contactInvoices := [⟨1, 9, "John Doe", 1, 1⟩]
    vats := []
    products := []
    invoiceLines := []
    invoices := []
    fpInvoiceTypesAllowed := [] }

/-- A sample state for product insertion: two companies with extension
rows, one VAT, one product named "Widget" owned by company 1. -/
def dbProducts : DB :=
  { companies := [1, 2]
    contacts := []
    addresses := []
    accounts := []
    transactions := []
    invoiceTypes := []
    fiscalPositions := []
    companyInvoices := [⟨1, 1, "ACME SA", none, none, none, none, none⟩,
      ⟨2, 2, "Globex SA", none, none, none, none, none⟩]
    contactInvoices := []
    vats := [⟨1, "21% AR", "21", 21 / 100⟩]
    products := [⟨1, 1, "Widget", none, 1⟩]
    invoiceLines := []
    invoices := []
    fpInvoiceTypesAllowed := [] }

/-- A sample `invoice_ar` state: two AR company extensions, one address,
one registered point of sale with AFIP id 3 under company 1. -/
def dbPointsOfSale : ARDB :=
  { companyInvoiceARs := [1, 2]
    addresses := [1]
    pointOfSalesAR := [⟨1, 1, 3, "Main", "W", 1, false⟩] }

/-! ## Claim theorems -/

/-- C1: the claim says validation rejects values outside [0.00, 1.00] for
all four monetary-fraction fields.  The code enforces this for `VAT.tax`
and `InvoiceLine.discount`, but `QuotationLine.product_discount` and
`SaleLine.product_discount` are `FloatField`s declared with the same
"A number between 0.00 and 1.00" help text yet NO validators, so the
out-of-range value 2 passes their field validation: the code contradicts
its own documentation. -/
theorem discount_fraction_validation_gap :
    VAT.taxValidatorsPass 2 = false ∧
    InvoiceLine.discountValidatorsPass 2 = false ∧
    QuotationLine.product_discountValidatorsPass 2 = true ∧
    SaleLine.product_discountValidatorsPass 2 = true ∧
    QuotationLine.clean ⟨1, 1, none, none, 2, 1⟩ = true ∧
    SaleLine.clean ⟨1, 1, none, none, 2, 1⟩ = true ∧
    ¬ ((2 : ℚ) ≤ 1) := by
  decide

/-- C2 (counterexample): the claim that every non-one-to-one foreign key
of the schema is protected is false: `CompanyInvoice.fiscal_address` is a
plain `ForeignKey` (not a one-to-one extension link) to the shared
`PhysicalAddress` master table, declared with `on_delete=CASCADE`. -/
theorem cascade_only_one_to_one_refuted :
    (⟨"CompanyInvoice", "fiscal_address", "PhysicalAddress",
        false, OnDelete.CASCADE, true⟩ : FKField) ∈ erpForeignKeys ∧
    ¬ (∀ fk ∈ erpForeignKeys,
        fk.oneToOne = false → fk.onDelete = OnDelete.PROTECT) := by
  decide

/-- C2 (amended): every foreign key of the schema that is not a
one-to-one extension link is protected, except the two `fiscal_address`
references of `CompanyInvoice` and `ContactInvoice`, which cascade. -/
theorem cascade_scope (fk : FKField) (h : fk ∈ erpForeignKeys)
    (h1 : fk.oneToOne = false) :
    fk.onDelete = OnDelete.PROTECT ∨
      (fk.field = "fiscal_address" ∧
        (fk.model = "CompanyInvoice" ∨ fk.model = "ContactInvoice")) := by
  have hall : ∀ g ∈ erpForeignKeys, g.oneToOne = false →
      (g.onDelete = OnDelete.PROTECT ∨
        (g.field = "fiscal_address" ∧
          (g.model = "CompanyInvoice" ∨ g.model = "ContactInvoice"))) := by
    decide
  exact hall fk h h1

/-- C2 (witness): the amended theorem applied to the `Product.vat`
foreign key. -/
theorem cascade_scope_witness :
    (⟨"Product", "vat", "VAT", false, OnDelete.PROTECT, false⟩ :
        FKField).onDelete = OnDelete.PROTECT ∨
      ((⟨"Product", "vat", "VAT", false, OnDelete.PROTECT, false⟩ :
          FKField).field = "fiscal_address" ∧
        ((⟨"Product", "vat", "VAT", false, OnDelete.PROTECT, false⟩ :
            FKField).model = "CompanyInvoice" ∨
          (⟨"Product", "vat", "VAT", false, OnDelete.PROTECT, false⟩ :
            FKField).model = "ContactInvoice")) :=
  cascade_scope ⟨"Product", "vat", "VAT", false, OnDelete.PROTECT, false⟩
    (by decide) (by decide)

/-- C10: an `Invoice`, `Quotation` or `Sale` created without an explicit
status value starts with the Draft status code of its document type, and
that code is the one labelled "Draft" in the type's choices list. -/
theorem new_document_status_defaults_to_draft
    (i ic ict d qi qc qd si sc sd : Nat) :
    (Invoice.new i ic ict d).status = INVOICE_STATUSTYPE_DRAFT ∧
    (Quotation.new qi qc qd).status = QUOTATION_STATUSTYPE_DRAFT ∧
    (Sale.new si sc sd).status = SALE_STATUSTYPE_DRAFT ∧
    (INVOICE_STATUSTYPE_DRAFT, "Draft") ∈ INVOICE_STATUS_TYPES ∧
    (QUOTATION_STATUSTYPE_DRAFT, "Draft") ∈ QUOTATION_STATUS_TYPES ∧
    (SALE_STATUSTYPE_DRAFT, "Draft") ∈ SALE_STATUS_TYPES := by
  refine ⟨rfl, rfl, rfl, ?_, ?_, ?_⟩ <;> decide

/-- C3: validation of an `Invoice`, `Quotation` or `Sale` rejects a
document date strictly in the future relative to the current day, and
accepts a date equal to today or in the past (given the record's status
code is one its choices list allows, the only other check the
declarations impose). -/
theorem document_date_not_in_future
    (today : Nat) (r : Invoice) (q : Quotation) (s : Sale) :
    (today < r.invoice_date → Invoice.clean today r = false) ∧
    (r.invoice_date ≤ today →
      (INVOICE_STATUS_TYPES.map Prod.fst).contains r.status = true →
      Invoice.clean today r = true) ∧
    (today < q.quotation_date → Quotation.clean today q = false) ∧
    (q.quotation_date ≤ today →
      (QUOTATION_STATUS_TYPES.map Prod.fst).contains q.status = true →
      Quotation.clean today q = true) ∧
    (today < s.sale_date → Sale.clean today s = false) ∧
    (s.sale_date ≤ today →
      (SALE_STATUS_TYPES.map Prod.fst).contains s.status = true →
      Sale.clean today s = true) := by
  refine ⟨fun h => ?_, fun h hst => ?_, fun h => ?_, fun h hst => ?_,
    fun h => ?_, fun h hst => ?_⟩ <;>
    simp_all [Invoice.clean, Quotation.clean, Sale.clean,
      date_is_present_or_past, Nat.not_le_of_lt]

/-- C3 (witness): the theorem at `today = 5` on fresh documents dated
day 5: a same-day date is accepted, and since validation passed, day 5
is indeed not in the future. -/
theorem document_date_not_in_future_witness :
    Invoice.clean 5 (Invoice.new 1 1 1 5) = true ∧
    Quotation.clean 5 (Quotation.new 1 1 5) = true ∧
    Sale.clean 5 (Sale.new 1 1 5) = true :=
  ⟨(document_date_not_in_future 5 (Invoice.new 1 1 1 5) (Quotation.new 1 1 5)
      (Sale.new 1 1 5)).2.1 (by decide) (by decide),
   (document_date_not_in_future 5 (Invoice.new 1 1 1 5) (Quotation.new 1 1 5)
      (Sale.new 1 1 5)).2.2.2.1 (by decide) (by decide),
   (document_date_not_in_future 5 (Invoice.new 1 1 1 5) (Quotation.new 1 1 5)
      (Sale.new 1 1 5)).2.2.2.2.2 (by decide) (by decide)⟩

/-- C8: a submitted `ContactInvoice` with no fiscal position fails
validation (the field is required), while a submitted `CompanyInvoice`
with no fiscal position passes validation provided its required fields
(`persons_company`, a non-blank `legal_name` of at most 300 characters)
are in order — the field is optional there. -/
theorem contact_fiscal_position_required_company_optional
    (x : ContactInvoiceInput) (today : Nat) (y : CompanyInvoiceInput)
    (hx : x.fiscal_position = none)
    (hy0 : y.fiscal_position = none)
    (hy1 : y.persons_company.isSome = true)
    (hy2 : y.legal_name ≠ "")
    (hy3 : y.legal_name.length ≤ 300)
    (hy4 : y.initiated_activities = none) :
    ContactInvoiceInput.clean x = false ∧
    CompanyInvoiceInput.clean today y = true ∧
    y.fiscal_position = none := by
  refine ⟨?_, ?_, hy0⟩
  · simp [ContactInvoiceInput.clean, hx]
  · simp [CompanyInvoiceInput.clean, hy1, hy2, hy3, hy4]

/-- C8 (witness): the theorem at a contact input lacking only its fiscal
position and a company input with no fiscal position at all. -/
theorem contact_fiscal_position_required_company_optional_witness :
    ContactInvoiceInput.clean ⟨some 1, "John Doe", none, some 1⟩ = false ∧
    CompanyInvoiceInput.clean 5
      ⟨some 1, "ACME SA", none, none, none, none, none⟩ = true ∧
    (⟨some 1, "ACME SA", none, none, none, none, none⟩ :
      CompanyInvoiceInput).fiscal_position = none :=
  contact_fiscal_position_required_company_optional
    ⟨some 1, "John Doe", none, some 1⟩ 5
    ⟨some 1, "ACME SA", none, none, none, none, none⟩
    rfl rfl rfl (by decide) (by decide) rfl

/-- C9: a record that passes validation carries a status from its
document type's enumeration: an `Invoice` one of Draft/Accepted/
Authorized/Canceled, a `Quotation` one of Draft/Saved/Sold/Canceled, a
`Sale` one of Draft/Saved/Invoiced/Canceled. -/
theorem document_status_enumerations
    (today : Nat) (r : Invoice) (q : Quotation) (s : Sale)
    (hr : Invoice.clean today r = true)
    (hq : Quotation.clean today q = true)
    (hs : Sale.clean today s = true) :
    (r.status = INVOICE_STATUSTYPE_DRAFT ∨
      r.status = INVOICE_STATUSTYPE_ACCEPTED ∨
      r.status = INVOICE_STATUSTYPE_AUTHORIZED ∨
      r.status = INVOICE_STATUSTYPE_CANCELED) ∧
    (q.status = QUOTATION_STATUSTYPE_DRAFT ∨
      q.status = QUOTATION_STATUSTYPE_SAVED ∨
      q.status = QUOTATION_STATUSTYPE_SOLD ∨
      q.status = QUOTATION_STATUSTYPE_CANCELED) ∧
    (s.status = SALE_STATUSTYPE_DRAFT ∨
      s.status = SALE_STATUSTYPE_SAVED ∨
      s.status = SALE_STATUSTYPE_INVOICED ∨
      s.status = SALE_STATUSTYPE_CANCELED) := by
  simp_all [Invoice.clean, Quotation.clean, Sale.clean,
    INVOICE_STATUS_TYPES, QUOTATION_STATUS_TYPES, SALE_STATUS_TYPES,
    INVOICE_STATUSTYPE_DRAFT, INVOICE_STATUSTYPE_ACCEPTED,
    INVOICE_STATUSTYPE_AUTHORIZED, INVOICE_STATUSTYPE_CANCELED,
    QUOTATION_STATUSTYPE_DRAFT, QUOTATION_STATUSTYPE_SAVED,
    QUOTATION_STATUSTYPE_SOLD, QUOTATION_STATUSTYPE_CANCELED,
    SALE_STATUSTYPE_DRAFT, SALE_STATUSTYPE_SAVED,
    SALE_STATUSTYPE_INVOICED, SALE_STATUSTYPE_CANCELED]

/-- C9 (witness): the theorem on fresh documents dated day 0 at
`today = 0`, all of which pass validation. -/
theorem document_status_enumerations_witness :
    ((Invoice.new 1 1 1 0).status = INVOICE_STATUSTYPE_DRAFT ∨
      (Invoice.new 1 1 1 0).status = INVOICE_STATUSTYPE_ACCEPTED ∨
      (Invoice.new 1 1 1 0).status = INVOICE_STATUSTYPE_AUTHORIZED ∨
      (Invoice.new 1 1 1 0).status = INVOICE_STATUSTYPE_CANCELED) ∧
    ((Quotation.new 1 1 0).status = QUOTATION_STATUSTYPE_DRAFT ∨
      (Quotation.new 1 1 0).status = QUOTATION_STATUSTYPE_SAVED ∨
      (Quotation.new 1 1 0).status = QUOTATION_STATUSTYPE_SOLD ∨
      (Quotation.new 1 1 0).status = QUOTATION_STATUSTYPE_CANCELED) ∧
    ((Sale.new 1 1 0).status = SALE_STATUSTYPE_DRAFT ∨
      (Sale.new 1 1 0).status = SALE_STATUSTYPE_SAVED ∨
      (Sale.new 1 1 0).status = SALE_STATUSTYPE_INVOICED ∨
      (Sale.new 1 1 0).status = SALE_STATUSTYPE_CANCELED) :=
  document_status_enumerations 0 (Invoice.new 1 1 1 0) (Quotation.new 1 1 0)
    (Sale.new 1 1 0) (by decide) (by decide) (by decide)

/-- C4: deleting a `VAT`, `Product`, `Account` or `FiscalPosition` that
some row references through a protected foreign key (`Product.vat`,
`InvoiceLine.product`, the default account references and the fiscal
position references of the company/contact extensions) fails with an
integrity error; no modified state is produced, so every record is
unchanged. -/
theorem protected_master_data_delete_fails (s : DB) (vid pid aid fid : Nat) :
    ((∃ p ∈ s.products, p.vat = vid) →
      deleteVAT s vid = .error "ProtectedError") ∧
    ((∃ l ∈ s.invoiceLines, l.product = pid) →
      deleteProduct s pid = .error "ProtectedError") ∧
    ((∃ c ∈ s.companyInvoices,
        c.default_invoice_debit_account = some aid ∨
        c.default_invoice_credit_account = some aid) →
      deleteAccount s aid = .error "ProtectedError") ∧
    (((∃ c ∈ s.companyInvoices, c.fiscal_position = some fid) ∨
      (∃ c ∈ s.contactInvoices, c.fiscal_position = fid)) →
      deleteFiscalPosition s fid = .error "ProtectedError") := by
  refine ⟨?_, ?_, ?_, ?_⟩
  · rintro ⟨p, hp, hv⟩
    have h : s.products.any (fun p => p.vat == vid) = true :=
      List.any_eq_true.mpr ⟨p, hp, by simp [hv]⟩
    simp [deleteVAT, h]
  · rintro ⟨l, hl, hv⟩
    have h : s.invoiceLines.any (fun l => l.product == pid) = true :=
      List.any_eq_true.mpr ⟨l, hl, by simp [hv]⟩
    simp [deleteProduct, h]
  · rintro ⟨c, hc, hv⟩
    have h : s.companyInvoices.any (fun c =>
        c.default_invoice_debit_account == some aid
          || c.default_invoice_credit_account == some aid) = true :=
      List.any_eq_true.mpr ⟨c, hc, by rcases hv with hv | hv <;> simp [hv]⟩
    simp [deleteAccount, h]
  · rintro (⟨c, hc, hv⟩ | ⟨c, hc, hv⟩)
    · have h : s.companyInvoices.any
          (fun c => c.fiscal_position == some fid) = true :=
        List.any_eq_true.mpr ⟨c, hc, by simp [hv]⟩
      simp [deleteFiscalPosition, h]
    · have h : s.contactInvoices.any
          (fun c => c.fiscal_position == fid) = true :=
        List.any_eq_true.mpr ⟨c, hc, by simp [hv]⟩
      simp [deleteFiscalPosition, h]

/-- C4 (witness): in `dbMaster` the VAT is referenced by a product, the
product by an invoice line, the account and the fiscal position by the
company extension, and all four deletes fail. -/
theorem protected_master_data_delete_fails_witness :
    deleteVAT dbMaster 1 = .error "ProtectedError" ∧
    deleteProduct dbMaster 1 = .error "ProtectedError" ∧
    deleteAccount dbMaster 1 = .error "ProtectedError" ∧
    deleteFiscalPosition dbMaster 1 = .error "ProtectedError" :=
  ⟨(protected_master_data_delete_fails dbMaster 1 1 1 1).1 (by decide),
   (protected_master_data_delete_fails dbMaster 1 1 1 1).2.1 (by decide),
   (protected_master_data_delete_fails dbMaster 1 1 1 1).2.2.1 (by decide),
   (protected_master_data_delete_fails dbMaster 1 1 1 1).2.2.2
     (Or.inl (by decide))⟩

/-- C5: when deleting a `persons.Company` or a `contact.Contact`
succeeds, the cascade has removed every `CompanyInvoice` /
`ContactInvoice` extension row referencing the deleted entity: none
remains in the resulting state. -/
theorem company_contact_delete_cascades_extension
    (s s1 s2 : DB) (cid kid : Nat)
    (h1 : deleteCompany s cid = .ok s1)
    (h2 : deleteContact s kid = .ok s2) :
    (∀ ci ∈ s1.companyInvoices, ci.persons_company ≠ cid) ∧
    (∀ ci ∈ s2.contactInvoices, ci.contact_contact ≠ kid) := by
  constructor
  · simp only [deleteCompany] at h1
    split at h1
    · exact absurd h1 (by simp)
    · injection h1 with h1
      subst h1
      intro ci hci
      simp only [List.mem_filter, decide_eq_true_eq] at hci
      exact hci.2
  · simp only [deleteContact] at h2
    split at h2
    · exact absurd h2 (by simp)
    · injection h2 with h2
      subst h2
      intro ci hci
      simp only [List.mem_filter, decide_eq_true_eq] at hci
      exact hci.2

/-- C5 (witness): deleting company 7 and contact 9 from
`dbExtensionOnly` succeeds and leaves no extension row referencing
them. -/
theorem company_contact_delete_cascades_extension_witness :
    (∀ ci ∈ ({ dbExtensionOnly with
        companies := [], companyInvoices := [] } : DB).companyInvoices,
      ci.persons_company ≠ 7) ∧
    (∀ ci ∈ ({ dbExtensionOnly with
        contacts := [], contactInvoices := [] } : DB).contactInvoices,
      ci.contact_contact ≠ 9) :=
  company_contact_delete_cascades_extension dbExtensionOnly
    { dbExtensionOnly with companies := [], companyInvoices := [] }
    { dbExtensionOnly with contacts := [], contactInvoices := [] }
    7 9 rfl rfl

/-- C6: inserting a `Product` whose `(invoice_company, name)` pair an
existing product already carries fails, while inserting one that
satisfies the integrity constraints — fresh primary key, existing
foreign-key targets, no product of the same company with the same
name — succeeds, even if a product of another company has that name. -/
theorem product_name_unique_per_company (s : DB) (p : Product) :
    ((∃ q ∈ s.products,
        q.invoice_company = p.invoice_company ∧ q.name = p.name) →
      ∀ s1, ¬ insertProduct s p = .ok s1) ∧
    ((∀ q ∈ s.products, ¬ q.id = p.id) →
      (∃ c ∈ s.companyInvoices, c.id = p.invoice_company) →
      (∃ v ∈ s.vats, v.id = p.vat) →
      (∀ q ∈ s.products,
        ¬ (q.invoice_company = p.invoice_company ∧ q.name = p.name)) →
      insertProduct s p = .ok { s with products := s.products ++ [p] }) := by
  constructor
  · rintro ⟨q, hq, hc, hn⟩ s1 hok
    have hdup : s.products.any (fun q =>
        q.invoice_company == p.invoice_company && q.name == p.name) = true :=
      List.any_eq_true.mpr ⟨q, hq, by simp [hc, hn]⟩
    simp only [insertProduct] at hok
    split_ifs at hok
  · intro hid hco hvat huniq
    have h1 : s.products.any (fun q => q.id == p.id) = false := by
      simp only [List.any_eq_false]
      intro q hq
      simpa using hid q hq
    have h2 : s.companyInvoices.any
        (fun c => c.id == p.invoice_company) = true := by
      rcases hco with ⟨c, hc, he⟩
      exact List.any_eq_true.mpr ⟨c, hc, by simp [he]⟩
    have h3 : s.vats.any (fun v => v.id == p.vat) = true := by
      rcases hvat with ⟨v, hv, he⟩
      exact List.any_eq_true.mpr ⟨v, hv, by simp [he]⟩
    have h4 : s.products.any (fun q =>
        q.invoice_company == p.invoice_company && q.name == p.name) = false := by
      simp only [List.any_eq_false]
      intro q hq
      simpa using huniq q hq
    simp [insertProduct, h1, h2, h3, h4]

/-- C6 (witness): in `dbProducts`, a second "Widget" under company 1 is
rejected while a "Widget" under company 2 is accepted. -/
theorem product_name_unique_per_company_witness :
    (∀ s1, ¬ insertProduct dbProducts ⟨2, 1, "Widget", none, 1⟩ = .ok s1) ∧
    insertProduct dbProducts ⟨2, 2, "Widget", none, 1⟩ =
      .ok { dbProducts with
        products := dbProducts.products ++ [⟨2, 2, "Widget", none, 1⟩] } :=
  ⟨(product_name_unique_per_company dbProducts ⟨2, 1, "Widget", none, 1⟩).1
      (by decide),
   (product_name_unique_per_company dbProducts ⟨2, 2, "Widget", none, 1⟩).2
      (by decide) (by decide) (by decide) (by decide)⟩

/-- C7: inserting a `PointOfSaleAR` whose `(invoicear_company, afip_id)`
pair an existing row already carries fails, while one that satisfies the
integrity constraints succeeds, even if a point of sale of another AR
company has the same `afip_id`. -/
theorem pos_afip_id_unique_per_company (s : ARDB) (p : PointOfSaleAR) :
    ((∃ q ∈ s.pointOfSalesAR,
        q.invoicear_company = p.invoicear_company ∧ q.afip_id = p.afip_id) →
      ∀ s1, ¬ insertPointOfSaleAR s p = .ok s1) ∧
    ((∀ q ∈ s.pointOfSalesAR, ¬ q.id = p.id) →
      p.invoicear_company ∈ s.companyInvoiceARs →
      p.fiscal_address ∈ s.addresses →
      (∀ q ∈ s.pointOfSalesAR,
        ¬ (q.invoicear_company = p.invoicear_company ∧ q.afip_id = p.afip_id)) →
      insertPointOfSaleAR s p =
        .ok { s with pointOfSalesAR := s.pointOfSalesAR ++ [p] }) := by
  constructor
  · rintro ⟨q, hq, hc, hn⟩ s1 hok
    have hdup : s.pointOfSalesAR.any (fun q =>
        q.invoicear_company == p.invoicear_company && q.afip_id == p.afip_id)
          = true :=
      List.any_eq_true.mpr ⟨q, hq, by simp [hc, hn]⟩
    simp only [insertPointOfSaleAR] at hok
    split_ifs at hok
  · intro hid hco hfa huniq
    have h1 : s.pointOfSalesAR.any (fun q => q.id == p.id) = false := by
      simp only [List.any_eq_false]
      intro q hq
      simpa using hid q hq
    have h2 : s.companyInvoiceARs.any
        (fun c => c == p.invoicear_company) = true :=
      List.any_eq_true.mpr ⟨p.invoicear_company, hco, by simp⟩
    have h3 : s.addresses.any (fun a => a == p.fiscal_address) = true :=
      List.any_eq_true.mpr ⟨p.fiscal_address, hfa, by simp⟩
    have h4 : s.pointOfSalesAR.any (fun q =>
        q.invoicear_company == p.invoicear_company && q.afip_id == p.afip_id)
          = false := by
      simp only [List.any_eq_false]
      intro q hq
      simpa using huniq q hq
    simp [insertPointOfSaleAR, h1, h2, h3, h4]

/-- C7 (witness): in `dbPointsOfSale`, a second AFIP id 3 under AR
company 1 is rejected while AFIP id 3 under AR company 2 is accepted. -/
theorem pos_afip_id_unique_per_company_witness :
    (∀ s1, ¬ insertPointOfSaleAR dbPointsOfSale
        ⟨2, 1, 3, "Annex", "W", 1, false⟩ = .ok s1) ∧
    insertPointOfSaleAR dbPointsOfSale ⟨2, 2, 3, "Annex", "W", 1, false⟩ =
      .ok { dbPointsOfSale with pointOfSalesAR :=
        dbPointsOfSale.pointOfSalesAR ++ [⟨2, 2, 3, "Annex", "W", 1, false⟩] } :=
  ⟨(pos_afip_id_unique_per_company dbPointsOfSale
      ⟨2, 1, 3, "Annex", "W", 1, false⟩).1 (by decide),
   (pos_afip_id_unique_per_company dbPointsOfSale
      ⟨2, 2, 3, "Annex", "W", 1, false⟩).2
      (by decide) (by decide) (by decide) (by decide)⟩

end ERP
